import Mathlib

/-!
Shallow embedding of the vitals presentation pipeline of
`src/packages/esm-patient-vitals-app/src/vitals/vitals-overview.component.tsx`.

Measurement values are JavaScript numbers in the source; they are modelled as
`Int` here (the claims only involve subtraction, equality and comparison with
zero, which behave identically). An optional (possibly unrecorded) field is
`Option Int`: `none` models the absent / `undefined` field, `some n` a recorded
value. JavaScript truthiness of such a field (`undefined` and `0` are falsy) is
made explicit as `jsTruthy`. A thrown `TypeError` is modelled as
`Except.error`.
-/

namespace VitalsOverview

/-- One raw measurement record as consumed by the component (the element type
of the `vitals` array returned by `useVitalsAndBiometrics`): a date timestamp
plus optional numeric vitals and opaque interpretation tags. -/
structure VitalRecord where
  id : String
  date : Int
  temperature : Option Int
  systolic : Option Int
  diastolic : Option Int
  pulse : Option Int
  respiratoryRate : Option Int
  spo2 : Option Int
  bloodPressureRenderInterpretation : Option String
  pulseRenderInterpretation : Option String
  spo2RenderInterpretation : Option String
  temperatureRenderInterpretation : Option String
  respiratoryRateRenderInterpretation : Option String
deriving DecidableEq

/-- JavaScript truthiness of an optional numeric field: `undefined` is falsy,
`0` is falsy, every other number is truthy. -/
def jsTruthy : Option Int → Bool
  | none => false
  | some n => !(n == 0)

/-- The numeric value of an optional field; only meaningful under a
`jsTruthy` guard, where the field is necessarily `some`. -/
def jsVal (v : Option Int) : Int := v.getD 0

/-- The value a JavaScript template literal or string concatenation prints for
an optional numeric field under the nullish-coalescing fallback
`v ?? "--"` (line 138): the number rendered as a string, or the placeholder. -/
def bpComponent : Option Int → String
  | none => "--"
  | some n => toString n

/-- A render-cell value: the JS expression `v ?? "--"` evaluates to a number
when the field is present and to the placeholder string when it is absent. -/
inductive RenderValue where
  | num (n : Int)
  | str (s : String)
deriving DecidableEq

/-- The JS expression `v ?? "--"` (nullish coalescing, lines 140-146):
`0` is NOT replaced, only `undefined` is. -/
def renderOrPlaceholder : Option Int → RenderValue
  | none => .str "--"
  | some n => .num n

/-- One display row as built by `tableRows` (lines 132-151): the spread of the
raw record plus the per-field render strings. -/
structure VitalsTableRow where
  record : VitalRecord
  dateRender : String
  bloodPressureRender : String
  pulseRender : RenderValue
  spo2Render : RenderValue
  temperatureRender : RenderValue
  respiratoryRateRender : RenderValue
deriving DecidableEq

/-- The body of the `vitals?.map` callback of `tableRows` (lines 134-148).
`fmt` abstracts the external date formatting collaborator
`formatDate(parseDate(...))`, a pure function of the timestamp. -/
def normalizeRow (fmt : Int → String) (v : VitalRecord) : VitalsTableRow :=
  { record := v
    dateRender := fmt v.date
    bloodPressureRender := bpComponent v.systolic ++ " / " ++ bpComponent v.diastolic
    pulseRender := renderOrPlaceholder v.pulse
    spo2Render := renderOrPlaceholder v.spo2
    temperatureRender := renderOrPlaceholder v.temperature
    respiratoryRateRender := renderOrPlaceholder v.respiratoryRate }

/-- `tableRows` (lines 132-151): `vitals?.map(...)`, `undefined` when the
upstream data is still `undefined`. -/
def tableRows (fmt : Int → String) (vitals : Option (List VitalRecord)) :
    Option (List VitalsTableRow) :=
  vitals.map (fun vs => vs.map (normalizeRow fmt))

/-- The `tableRows` mapping on a present record sequence. -/
def tableRowsOf (fmt : Int → String) (vs : List VitalRecord) : List VitalsTableRow :=
  vs.map (normalizeRow fmt)

/-- The temperature column comparator (lines 91-92):
`valueA.temperature && valueB.temperature ? valueA.temperature - valueB.temperature : 0`. -/
def temperatureSortFunc (a b : VitalsTableRow) : Int :=
  if jsTruthy a.record.temperature && jsTruthy b.record.temperature then
    jsVal a.record.temperature - jsVal b.record.temperature
  else 0

/-- The pulse column comparator (line 112). -/
def pulseSortFunc (a b : VitalsTableRow) : Int :=
  if jsTruthy a.record.pulse && jsTruthy b.record.pulse then
    jsVal a.record.pulse - jsVal b.record.pulse
  else 0

/-- The respiratory-rate column comparator (lines 121-122). -/
def respiratoryRateSortFunc (a b : VitalsTableRow) : Int :=
  if jsTruthy a.record.respiratoryRate && jsTruthy b.record.respiratoryRate then
    jsVal a.record.respiratoryRate - jsVal b.record.respiratoryRate
  else 0

/-- The SpO2 column comparator (line 128). -/
def spo2SortFunc (a b : VitalsTableRow) : Int :=
  if jsTruthy a.record.spo2 && jsTruthy b.record.spo2 then
    jsVal a.record.spo2 - jsVal b.record.spo2
  else 0

/-- The blood-pressure column comparator (lines 101-106): guarded on the
truthiness of all four values, primary key systolic (strict JS inequality
on the two numbers), tie-break diastolic. -/
def bloodPressureSortFunc (a b : VitalsTableRow) : Int :=
  if jsTruthy a.record.systolic && jsTruthy b.record.systolic &&
      jsTruthy a.record.diastolic && jsTruthy b.record.diastolic then
    if a.record.systolic ≠ b.record.systolic then
      jsVal a.record.systolic - jsVal b.record.systolic
    else
      jsVal a.record.diastolic - jsVal b.record.diastolic
  else 0

/-- A record with every optional field absent, used to build concrete rows. -/
def blankRecord : VitalRecord :=
  { id := ""
    date := 0
    temperature := none
    systolic := none
    diastolic := none
    pulse := none
    respiratoryRate := none
    spo2 := none
    bloodPressureRenderInterpretation := none
    pulseRenderInterpretation := none
    spo2RenderInterpretation := none
    temperatureRenderInterpretation := none
    respiratoryRateRenderInterpretation := none }

/-- A concrete display row with the given optional vitals, dates rendered by
a fixed stand-in formatter. -/
def testRow (temp sys dia pul rr sp : Option Int) : VitalsTableRow :=
  normalizeRow (fun d => toString d)
    { blankRecord with
      temperature := temp
      systolic := sys
      diastolic := dia
      pulse := pul
      respiratoryRate := rr
      spo2 := sp }

/-- The comparator passed to `vitals.sort` (lines 178-180):
`new Date(vitalB.date).getTime() - new Date(vitalA.date).getTime()` orders by
date descending; as the Boolean relation of the stable sort it keeps `a`
before `b` exactly when the comparator is non-positive, i.e. when
`b.date ≤ a.date`. -/
def dateDescLe (a b : VitalRecord) : Bool := b.date ≤ a.date

/-- The JS comparison `v > 0` on an optional field: `undefined > 0` is false,
a recorded number compares numerically. -/
def jsGtZero : Option Int → Bool
  | none => false
  | some n => decide (0 < n)

/-- The filter predicate of line 181: `vital.systolic > 0 && vital.diastolic > 0`. -/
def posBP (r : VitalRecord) : Bool :=
  jsGtZero r.systolic && jsGtZero r.diastolic

/-- `getSortedBP` (lines 177-183). JavaScript `Array.prototype.sort` mutates
the shared `vitals` array in place (and is required to be stable), then
`filter` builds a fresh array. The embedding passes the state explicitly: the
first component is the post-call contents of the shared `vitals` array, the
second is the function's return value. -/
def getSortedBP (vitals : List VitalRecord) : List VitalRecord × List VitalRecord :=
  let sortedVitals := vitals.mergeSort dateDescLe
  (sortedVitals, sortedVitals.filter posBP)

/-- The possible top-level render branches of the component (lines 203-282). -/
inductive View where
  | skeleton
  | errorState
  | dataCard (showOpenClinical : Bool)
  | emptyState
deriving DecidableEq

/-- The inputs that select the render branch: the load/error/data triple
returned by the external data-fetching hook (line 46). -/
structure RenderInput where
  isLoading : Bool
  error : Option String
  vitals : Option (List VitalRecord)

/-- The render branch selection (lines 203-282): loading skeleton first, then
the error state, then the data card when `vitals?.length` is truthy — whose
Open Clinical button is shown iff `getSortedBP().length > 0` (line 273) —
and otherwise the empty state. -/
def renderView (inp : RenderInput) : View :=
  if inp.isLoading then .skeleton
  else if inp.error.isSome then .errorState
  else
    match inp.vitals with
    | some vs =>
      if vs.length ≠ 0 then .dataCard (decide (0 < (getSortedBP vs).2.length))
      else .emptyState
    | none => .emptyState

/-- The patient demographic fields read by `handleOpenClinical`
(lines 189-197). -/
structure Patient where
  birthDate : String
  gender : String
  id : String

/-- What JS string concatenation prints for an optional numeric field:
the number, or the text undefined for an absent one. -/
def jsNumField : Option Int → String
  | none => "undefined"
  | some n => toString n

/-- The URL built by `handleOpenClinical` (lines 187-197). -/
def openClinicalURL (p : Patient) (r : VitalRecord) : String :=
  "http://localhost:22221/digipath/matt/ht_demo?dob=" ++ p.birthDate ++
    "&gender=" ++ p.gender ++ "&sbp=" ++ jsNumField r.systolic ++
    "&dbp=" ++ jsNumField r.diastolic ++ "&id=" ++ p.id

/-- `handleOpenClinical` (lines 185-199): reads `bp[0]` of the sorted,
filtered list and navigates to the built URL. On an empty filtered list
`bp[0]` is `undefined` and reading `.systolic` would throw, modelled as
`none`. -/
def handleOpenClinical (p : Patient) (vitals : List VitalRecord) : Option String :=
  match (getSortedBP vitals).2 with
  | [] => none
  | r :: _ => some (openClinicalURL p r)

/-- The `vitals` section of the typed config (line 48 reads
`config.vitals.showPrintButton`); each key may be absent. -/
structure VitalsSectionConfig where
  showPrintButton : Option Bool

/-- The typed configuration object of `useConfig<ConfigObject>()` with a
possibly absent `vitals` section. -/
structure ConfigObj where
  vitals : Option VitalsSectionConfig

/-- The excluded-identifier-type configuration (line 68 reads
`excludePatientIdentifierCodeTypes?.uuids`). -/
structure ExcludeIdentifierTypes where
  uuids : Option (List String)

/-- The untyped configuration of the second `useConfig()` call (line 45). -/
structure RootConfig where
  excludePatientIdentifierCodeTypes : Option ExcludeIdentifierTypes

/-- A patient identifier flattened to the two fields the component reads:
`identifier.type.coding[0].code` and `identifier.value` (lines 66-76). -/
structure PatientIdentifier where
  code : String
  value : String

/-- The derivation `config.vitals.showPrintButton && !chartView` (line 48)
under JS member-access semantics: reading `.showPrintButton` of an absent
`vitals` section throws a TypeError; an absent flag on a present section is
`undefined`, so the conjunction is falsy and the button is hidden. -/
def deriveShowPrintButton (cfg : ConfigObj) (chartView : Bool) : Except String Bool :=
  match cfg.vitals with
  | none => .error "TypeError"
  | some sec =>
    match sec.showPrintButton with
    | none => .ok false
    | some b => .ok (b && !chartView)

/-- The identifier filtering of `patientDetails` (lines 66-76):
`!excludePatientIdentifierCodeTypes?.uuids.includes(code)`. When the
exclusion object is absent the optional chain short-circuits (keep every
identifier, no throw); when it is present but its `uuids` list is absent,
`undefined.includes` throws a TypeError. -/
def deriveIdentifiers (cfg : RootConfig) (ids : List PatientIdentifier) :
    Except String (List String) :=
  match cfg.excludePatientIdentifierCodeTypes with
  | none => .ok (ids.map (fun i => i.value))
  | some ex =>
    match ex.uuids with
    | none => .error "TypeError"
    | some us => .ok ((ids.filter (fun i => !(us.contains i.code))).map (fun i => i.value))

/-- The unit lookup `conceptUnits.get(uuid) ?? ''` (lines 89-126): the map
may be incomplete or still loading; a missing key yields the empty string. -/
def resolveUnit (conceptUnits : List (String × String)) (uuid : String) : String :=
  match conceptUnits.lookup uuid with
  | some u => u
  | none => ""

/-- Modelled from the spec: the header builder `withUnit` lives in
`../common`, which is not among the provided sources; per the spec the header
concatenates the translated label with the resolved unit, and an empty unit
yields the label alone with no trailing artifact. -/
def withUnit (label unit : String) : String :=
  if unit = "" then label else label ++ " (" ++ unit ++ ")"

/-- A column header as built at lines 89-126:
`withUnit(t(...), conceptUnits.get(uuid) ?? '')`. -/
def columnHeader (label : String) (conceptUnits : List (String × String))
    (uuid : String) : String :=
  withUnit label (resolveUnit conceptUnits uuid)

/-- The events of the print cycle (lines 153-175): a print request (the
`onBeforeGetContent` callback runs, arming a fresh readiness resolver and
setting `isPrinting`), a React render-and-effect pass (the `useEffect` of
lines 155-159, firing the armed resolver when `isPrinting` has just become
true), and `onAfterPrint` (lines 171-174). -/
inductive PrintEvent where
  | request (id : Nat)
  | flush
  | afterPrint
deriving DecidableEq

/-- The component state driving the print cycle: the `isPrinting` state, the
value of `isPrinting` seen by the last effect pass (the `useEffect`
dependency), the `onBeforeGetContentResolve` ref, and the list of capture
cycles whose readiness resolver has fired, in order. -/
structure PrintState where
  isPrinting : Bool
  prevIsPrinting : Bool
  resolver : Option Nat
  captures : List Nat
deriving DecidableEq

/-- Initial print state: idle, nothing armed. -/
def initialPrintState : PrintState :=
  { isPrinting := false, prevIsPrinting := false, resolver := none, captures := [] }

/-- One transition of the print cycle. A request stores a fresh resolver in
the ref and sets `isPrinting` (lines 164-170, with `patient` and
`headerTitle` truthy). A flush runs the effect of lines 155-159: the effect
body fires only when its `isPrinting` dependency changed, and it invokes —
without clearing — the armed resolver, which lets the print collaborator
capture the content. `onAfterPrint` clears the ref and resets `isPrinting`
(lines 171-174). -/
def printStep (s : PrintState) (e : PrintEvent) : PrintState :=
  match e with
  | .request id => { s with resolver := some id, isPrinting := true }
  | .flush =>
    if s.isPrinting && !s.prevIsPrinting then
      match s.resolver with
      | some id => { s with prevIsPrinting := s.isPrinting, captures := s.captures ++ [id] }
      | none => { s with prevIsPrinting := s.isPrinting }
    else { s with prevIsPrinting := s.isPrinting }
  | .afterPrint => { s with resolver := none, isPrinting := false }

/-- Run a sequence of print events from the idle state. -/
def printRun (es : List PrintEvent) : PrintState :=
  es.foldl printStep initialPrintState

/-- A concrete record with blood pressure 120/80 and everything else absent. -/
def positiveBPRecord : VitalRecord :=
  { blankRecord with systolic := some 120, diastolic := some 80 }

/-- A concrete patient for evaluating the Open Clinical URL. -/
def demoPatient : Patient :=
  { birthDate := "1990-01-01", gender := "male", id := "p1" }

/-- The invariant holding between a print request and the completion of the
cycle: `isPrinting` is set, a resolver is armed, and a capture has happened
iff the effect has already observed the `isPrinting` transition. -/
def PrintInv (s : PrintState) : Prop :=
  s.isPrinting = true ∧ s.resolver.isSome = true ∧
    s.captures.length = (if s.prevIsPrinting then 1 else 0)

/-- C1 counterexample: two rows whose temperature fields are BOTH present
(one of them recorded as 0), yet the comparator returns 0 instead of the
numeric difference -37: the truthiness guard of line 92 conflates a recorded
zero with absence. -/
theorem vitals_numeric_sortFunc_zero_counterexample :
    (testRow (some 0) none none none none none).record.temperature.isSome = true ∧
    (testRow (some 37) none none none none none).record.temperature.isSome = true ∧
    temperatureSortFunc (testRow (some 0) none none none none none)
      (testRow (some 37) none none none none none) = 0 ∧
    jsVal ((testRow (some 0) none none none none none).record.temperature) -
      jsVal ((testRow (some 37) none none none none none).record.temperature) ≠ 0 := by
  decide

/-- C1 (amended): for the temperature, pulse, respiratory-rate and SpO2 column
comparators, whenever both operands' field is present AND nonzero the
comparator returns the numeric difference of the two values, and whenever
either operand's field is absent or zero it returns 0 (a total function, so it
never throws). -/
theorem vitals_numeric_sortFuncs_spec (a b : VitalsTableRow) :
    (jsTruthy a.record.temperature = true → jsTruthy b.record.temperature = true →
      temperatureSortFunc a b = jsVal a.record.temperature - jsVal b.record.temperature) ∧
    (jsTruthy a.record.temperature = false ∨ jsTruthy b.record.temperature = false →
      temperatureSortFunc a b = 0) ∧
    (jsTruthy a.record.pulse = true → jsTruthy b.record.pulse = true →
      pulseSortFunc a b = jsVal a.record.pulse - jsVal b.record.pulse) ∧
    (jsTruthy a.record.pulse = false ∨ jsTruthy b.record.pulse = false →
      pulseSortFunc a b = 0) ∧
    (jsTruthy a.record.respiratoryRate = true → jsTruthy b.record.respiratoryRate = true →
      respiratoryRateSortFunc a b =
        jsVal a.record.respiratoryRate - jsVal b.record.respiratoryRate) ∧
    (jsTruthy a.record.respiratoryRate = false ∨ jsTruthy b.record.respiratoryRate = false →
      respiratoryRateSortFunc a b = 0) ∧
    (jsTruthy a.record.spo2 = true → jsTruthy b.record.spo2 = true →
      spo2SortFunc a b = jsVal a.record.spo2 - jsVal b.record.spo2) ∧
    (jsTruthy a.record.spo2 = false ∨ jsTruthy b.record.spo2 = false →
      spo2SortFunc a b = 0) := by
  refine ⟨?_, ?_, ?_, ?_, ?_, ?_, ?_, ?_⟩
  · intro hx hy; simp [temperatureSortFunc, hx, hy]
  · rintro (h | h) <;> simp [temperatureSortFunc, h]
  · intro hx hy; simp [pulseSortFunc, hx, hy]
  · rintro (h | h) <;> simp [pulseSortFunc, h]
  · intro hx hy; simp [respiratoryRateSortFunc, hx, hy]
  · rintro (h | h) <;> simp [respiratoryRateSortFunc, h]
  · intro hx hy; simp [spo2SortFunc, hx, hy]
  · rintro (h | h) <;> simp [spo2SortFunc, h]

/-- Witness for C1: the amended comparator property evaluated at concrete
rows, one pair with both temperatures present and nonzero, one pair with the
pulse absent on one side. -/
theorem vitals_numeric_sortFuncs_spec_witness :
    temperatureSortFunc (testRow (some 36) none none (some 70) none none)
      (testRow (some 37) none none none none none) = -1 ∧
    pulseSortFunc (testRow (some 36) none none (some 70) none none)
      (testRow (some 37) none none none none none) = 0 := by
  have h := vitals_numeric_sortFuncs_spec
    (testRow (some 36) none none (some 70) none none)
    (testRow (some 37) none none none none none)
  exact ⟨by simpa using h.1 (by decide) (by decide),
    h.2.2.2.1 (Or.inr (by decide))⟩

/-- C2 counterexample: all four blood-pressure values are present (one
systolic recorded as 0) and the systolic values differ, yet the comparator
returns 0 instead of the systolic difference -120: the truthiness guard of
line 102 conflates a recorded zero with absence. -/
theorem bloodPressure_sortFunc_zero_counterexample :
    (testRow none (some 0) (some 80) none none none).record.systolic.isSome = true ∧
    (testRow none (some 0) (some 80) none none none).record.diastolic.isSome = true ∧
    (testRow none (some 120) (some 70) none none none).record.systolic.isSome = true ∧
    (testRow none (some 120) (some 70) none none none).record.diastolic.isSome = true ∧
    (testRow none (some 0) (some 80) none none none).record.systolic ≠
      (testRow none (some 120) (some 70) none none none).record.systolic ∧
    bloodPressureSortFunc (testRow none (some 0) (some 80) none none none)
      (testRow none (some 120) (some 70) none none none) = 0 ∧
    jsVal ((testRow none (some 0) (some 80) none none none).record.systolic) -
      jsVal ((testRow none (some 120) (some 70) none none none).record.systolic) ≠ 0 := by
  decide

/-- C2 (amended): the blood-pressure comparator returns the systolic
difference when all four values are present and nonzero and the systolic
values differ, the diastolic difference when all four are present and nonzero
and the systolic values are equal, and 0 whenever any of the four values is
absent or zero. -/
theorem bloodPressure_sortFunc_spec (a b : VitalsTableRow) :
    (jsTruthy a.record.systolic = true → jsTruthy b.record.systolic = true →
     jsTruthy a.record.diastolic = true → jsTruthy b.record.diastolic = true →
      (a.record.systolic ≠ b.record.systolic →
        bloodPressureSortFunc a b = jsVal a.record.systolic - jsVal b.record.systolic) ∧
      (a.record.systolic = b.record.systolic →
        bloodPressureSortFunc a b = jsVal a.record.diastolic - jsVal b.record.diastolic)) ∧
    (jsTruthy a.record.systolic = false ∨ jsTruthy b.record.systolic = false ∨
     jsTruthy a.record.diastolic = false ∨ jsTruthy b.record.diastolic = false →
      bloodPressureSortFunc a b = 0) := by
  constructor
  · intro h1 h2 h3 h4
    constructor
    · intro hne; simp [bloodPressureSortFunc, h1, h2, h3, h4, hne]
    · intro heq; simp [bloodPressureSortFunc, h1, h2, h3, h4, heq]
  · rintro (h | h | h | h) <;> simp [bloodPressureSortFunc, h]

/-- Witness for C2: the tie-break scenario of the spec, rows with systolic
120/80 and 120/70 — equal systolic, so the comparator returns the diastolic
difference 10 — plus an absent-operand pair yielding 0. -/
theorem bloodPressure_sortFunc_spec_witness :
    bloodPressureSortFunc (testRow none (some 120) (some 80) none none none)
      (testRow none (some 120) (some 70) none none none) = 10 ∧
    bloodPressureSortFunc (testRow none (some 120) (some 80) none none none)
      (testRow none none none none none none) = 0 := by
  have h := bloodPressure_sortFunc_spec
    (testRow none (some 120) (some 80) none none none)
    (testRow none (some 120) (some 70) none none none)
  have h2 := bloodPressure_sortFunc_spec
    (testRow none (some 120) (some 80) none none none)
    (testRow none none none none none none)
  exact ⟨by simpa using (h.1 (by decide) (by decide) (by decide) (by decide)).2 (by decide),
    h2.2 (Or.inr (Or.inl (by decide)))⟩

/-- C3: the normalizer renders each absent numeric field as the literal
placeholder "--" and each present field as the raw value (a recorded 0 stays
0: the nullish coalescing of lines 138-146 replaces only an absent field),
and renders blood pressure as the composite string systolic-slash-diastolic
with each component independently replaced by "--" when absent. -/
theorem normalizeRow_placeholder_spec (fmt : Int → String) (v : VitalRecord) :
    (v.temperature = none → (normalizeRow fmt v).temperatureRender = .str "--") ∧
    (∀ n, v.temperature = some n → (normalizeRow fmt v).temperatureRender = .num n) ∧
    (v.pulse = none → (normalizeRow fmt v).pulseRender = .str "--") ∧
    (∀ n, v.pulse = some n → (normalizeRow fmt v).pulseRender = .num n) ∧
    (v.respiratoryRate = none → (normalizeRow fmt v).respiratoryRateRender = .str "--") ∧
    (∀ n, v.respiratoryRate = some n → (normalizeRow fmt v).respiratoryRateRender = .num n) ∧
    (v.spo2 = none → (normalizeRow fmt v).spo2Render = .str "--") ∧
    (∀ n, v.spo2 = some n → (normalizeRow fmt v).spo2Render = .num n) ∧
    ((normalizeRow fmt v).bloodPressureRender =
      bpComponent v.systolic ++ " / " ++ bpComponent v.diastolic) ∧
    (v.systolic = none → bpComponent v.systolic = "--") ∧
    (∀ n, v.systolic = some n → bpComponent v.systolic = toString n) ∧
    (v.diastolic = none → bpComponent v.diastolic = "--") ∧
    (∀ n, v.diastolic = some n → bpComponent v.diastolic = toString n) := by
  refine ⟨?_, ?_, ?_, ?_, ?_, ?_, ?_, ?_, rfl, ?_, ?_, ?_, ?_⟩ <;>
    first
      | (intro h; simp [normalizeRow, renderOrPlaceholder, bpComponent, h])
      | (intro n h; simp [normalizeRow, renderOrPlaceholder, bpComponent, h])

/-- Witness for C3: a concrete record with temperature 36 and systolic 120
present, pulse and diastolic absent, evaluated through the normalizer. -/
theorem normalizeRow_placeholder_spec_witness :
    (normalizeRow (fun d => toString d)
      { blankRecord with temperature := some 36, systolic := some 120 }).temperatureRender =
        .num 36 ∧
    (normalizeRow (fun d => toString d)
      { blankRecord with temperature := some 36, systolic := some 120 }).pulseRender =
        .str "--" ∧
    (normalizeRow (fun d => toString d)
      { blankRecord with temperature := some 36, systolic := some 120 }).bloodPressureRender =
        "120 / --" := by
  have h := normalizeRow_placeholder_spec (fun d => toString d)
    { blankRecord with temperature := some 36, systolic := some 120 }
  refine ⟨h.2.1 36 rfl, h.2.2.1 rfl, ?_⟩
  rw [h.2.2.2.2.2.2.2.2.1]
  rfl

lemma printStep_inv {s : PrintState} {e : PrintEvent} (he : e ≠ PrintEvent.afterPrint)
    (h : PrintInv s) : PrintInv (printStep s e) := by
  obtain ⟨h1, h2, h3⟩ := h
  cases e with
  | request id => exact ⟨rfl, rfl, h3⟩
  | flush =>
    obtain ⟨id, hid⟩ := Option.isSome_iff_exists.mp h2
    cases hp : s.prevIsPrinting with
    | false =>
      rw [hp] at h3
      simp at h3
      refine ⟨?_, ?_, ?_⟩ <;> simp [printStep, h1, hp, hid, h3]
    | true =>
      rw [hp] at h3
      simp at h3
      refine ⟨?_, ?_, ?_⟩ <;> simp [printStep, h1, hp, hid, h3]
  | afterPrint => exact absurd rfl he

lemma printRun_inv : ∀ (es : List PrintEvent) (s : PrintState),
    (∀ e ∈ es, e ≠ PrintEvent.afterPrint) → PrintInv s →
    PrintInv (es.foldl printStep s)
  | [], _, _, h => h
  | e :: rest, s, hno, h =>
    printRun_inv rest (printStep s e)
      (fun x hx => hno x (List.mem_cons_of_mem e hx))
      (printStep_inv (hno e (List.mem_cons_self e rest)) h)

lemma printRun_prev_true : ∀ (es : List PrintEvent) (s : PrintState),
    (∀ e ∈ es, e ≠ PrintEvent.afterPrint) → PrintInv s → s.prevIsPrinting = true →
    (es.foldl printStep s).prevIsPrinting = true
  | [], _, _, _, hp => hp
  | e :: rest, s, hno, h, hp => by
    have hne := hno e (List.mem_cons_self e rest)
    apply printRun_prev_true rest (printStep s e)
      (fun x hx => hno x (List.mem_cons_of_mem e hx))
      (printStep_inv hne h)
    obtain ⟨h1, h2, -⟩ := h
    obtain ⟨id, hid⟩ := Option.isSome_iff_exists.mp h2
    cases e with
    | request i => simpa [printStep] using hp
    | flush => simp [printStep, h1, hp, hid]
    | afterPrint => exact absurd rfl hne

lemma printRun_flush_prev : ∀ (es : List PrintEvent) (s : PrintState),
    (∀ e ∈ es, e ≠ PrintEvent.afterPrint) → PrintInv s → PrintEvent.flush ∈ es →
    (es.foldl printStep s).prevIsPrinting = true
  | e :: rest, s, hno, h, hmem => by
    by_cases hf : PrintEvent.flush ∈ rest
    · exact printRun_flush_prev rest (printStep s e)
        (fun x hx => hno x (List.mem_cons_of_mem e hx))
        (printStep_inv (hno e (List.mem_cons_self e rest)) h) hf
    · have he : e = PrintEvent.flush := by
        rcases List.mem_cons.mp hmem with h' | h'
        · exact h'.symm
        · exact absurd h' hf
      subst he
      apply printRun_prev_true rest (printStep s PrintEvent.flush)
        (fun x hx => hno x (List.mem_cons_of_mem _ hx))
        (printStep_inv (hno _ (List.mem_cons_self _ rest)) h)
      obtain ⟨h1, h2, -⟩ := h
      obtain ⟨id, hid⟩ := Option.isSome_iff_exists.mp h2
      cases hp : s.prevIsPrinting <;> simp [printStep, h1, hp, hid]

/-- C4: at most one print cycle is in flight at a time. For every event
sequence beginning with a print request, containing at least one effect pass
and not yet the cycle completion — regardless of how many further print
requests it contains — exactly one capture results; and on completion
(`onAfterPrint`) the armed readiness resolver is cleared and `isPrinting`
reset. -/
theorem print_cycle_spec :
    (∀ (id : Nat) (rest : List PrintEvent),
      (∀ e ∈ rest, e ≠ PrintEvent.afterPrint) →
      PrintEvent.flush ∈ rest →
      (printRun (PrintEvent.request id :: rest)).captures.length = 1) ∧
    (∀ es : List PrintEvent,
      (printRun (es ++ [PrintEvent.afterPrint])).resolver = none ∧
      (printRun (es ++ [PrintEvent.afterPrint])).isPrinting = false) := by
  constructor
  · intro id rest hno hflush
    have hs0 : PrintInv (printStep initialPrintState (PrintEvent.request id)) :=
      ⟨rfl, rfl, rfl⟩
    have hrun : printRun (PrintEvent.request id :: rest) =
        rest.foldl printStep (printStep initialPrintState (PrintEvent.request id)) := rfl
    rw [hrun]
    have hinv := printRun_inv rest _ hno hs0
    have hprev := printRun_flush_prev rest _ hno hs0 hflush
    rw [hinv.2.2, hprev]
    rfl
  · intro es
    rw [printRun, List.foldl_append]
    exact ⟨rfl, rfl⟩

/-- Witness for C4: a concrete trace with a second print request arriving
after the first cycle captured and before it completed still yields exactly
one capture; a completed trace has the resolver cleared. -/
theorem print_cycle_spec_witness :
    (printRun [PrintEvent.request 1, PrintEvent.flush, PrintEvent.request 2,
      PrintEvent.flush]).captures.length = 1 ∧
    (printRun [PrintEvent.request 1, PrintEvent.flush,
      PrintEvent.afterPrint]).resolver = none := by
  constructor
  · exact print_cycle_spec.1 1 [PrintEvent.flush, PrintEvent.request 2, PrintEvent.flush]
      (by decide) (by decide)
  · exact (print_cycle_spec.2 [PrintEvent.request 1, PrintEvent.flush]).1

/-- C5 counterexample: with the `vitals` configuration section absent, the
unguarded member access `config.vitals.showPrintButton` of line 48 throws a
TypeError rather than defaulting to a disabled feature. -/
theorem config_missing_key_counterexample :
    deriveShowPrintButton { vitals := none } false = Except.error "TypeError" := rfl

/-- C5 (amended): absence of the print-button flag itself (with the `vitals`
section present) and absence of the whole excluded-identifier-type config
default to feature-disabled without a throw; but absence of the `vitals`
section makes deriving `showPrintButton` throw, and an exclusion config
present without its `uuids` list makes deriving `patientDetails` throw. -/
theorem config_missing_key_spec (sec : VitalsSectionConfig) (chartView : Bool)
    (ids : List PatientIdentifier) :
    (sec.showPrintButton = none →
      deriveShowPrintButton { vitals := some sec } chartView = .ok false) ∧
    deriveIdentifiers { excludePatientIdentifierCodeTypes := none } ids =
      .ok (ids.map (fun i => i.value)) ∧
    deriveShowPrintButton { vitals := none } chartView = .error "TypeError" ∧
    deriveIdentifiers { excludePatientIdentifierCodeTypes := some { uuids := none } } ids =
      .error "TypeError" := by
  refine ⟨?_, rfl, rfl, rfl⟩
  intro h
  simp [deriveShowPrintButton, h]

/-- Witness for C5: the amended defaults evaluated on a concrete config and
identifier list. -/
theorem config_missing_key_spec_witness :
    deriveShowPrintButton { vitals := some { showPrintButton := none } } false =
      Except.ok false ∧
    deriveIdentifiers { excludePatientIdentifierCodeTypes := none }
      [{ code := "c1", value := "v1" }] = Except.ok ["v1"] := by
  have h := config_missing_key_spec { showPrintButton := none } false
    [{ code := "c1", value := "v1" }]
  exact ⟨h.1 rfl, by simpa using h.2.1⟩

/-- C6: a concept identifier not contained in the unit mapping (also an
empty, still-loading mapping) resolves to the empty string without an error,
and the column header built from it is the translated label alone with no
trailing artifact. -/
theorem unit_resolution_unknown_spec (units : List (String × String))
    (uuid label : String) (h : units.lookup uuid = none) :
    resolveUnit units uuid = "" ∧ columnHeader label units uuid = label := by
  constructor
  · simp [resolveUnit, h]
  · simp [columnHeader, resolveUnit, withUnit, h]

/-- Witness for C6: an unmapped SpO2 concept id against a one-entry unit map. -/
theorem unit_resolution_unknown_spec_witness :
    resolveUnit [("temp-uuid", "DEG C")] "spo2-uuid" = "" ∧
    columnHeader "SpO2" [("temp-uuid", "DEG C")] "spo2-uuid" = "SpO2" :=
  unit_resolution_unknown_spec [("temp-uuid", "DEG C")] "spo2-uuid" "SpO2" rfl

/-- C7: when loading has finished without a fetch error and the record
sequence is empty, the component routes to the empty-state affordance, and
only a present fetch error ever produces the error state. -/
theorem emptyDataset_routing_spec (inp : RenderInput) :
    (inp.isLoading = false → inp.error = none → inp.vitals = some [] →
      renderView inp = .emptyState) ∧
    (renderView inp = .errorState → inp.error ≠ none) := by
  obtain ⟨l, err, vit⟩ := inp
  constructor
  · rintro rfl rfl rfl
    rfl
  · intro h hn
    simp only at hn
    subst hn
    cases l with
    | true => simp [renderView] at h
    | false =>
      cases vit with
      | none => simp [renderView] at h
      | some vs =>
        simp only [renderView, Bool.false_eq_true, if_false, Option.isSome_none] at h
        split at h <;> simp_all

/-- Witness for C7: the empty dataset routes to the empty state, and a state
that renders the error view indeed carries a fetch error. -/
theorem emptyDataset_routing_spec_witness :
    renderView { isLoading := false, error := none, vitals := some [] } = .emptyState ∧
    ({ isLoading := false, error := some "DataFetchError", vitals := some [] } :
      RenderInput).error ≠ none := by
  constructor
  · exact (emptyDataset_routing_spec
      { isLoading := false, error := none, vitals := some [] }).1 rfl rfl rfl
  · exact (emptyDataset_routing_spec
      { isLoading := false, error := some "DataFetchError", vitals := some [] }).2 rfl

/-- C8: the normalizer produces exactly one display row per record, in the
same order (the row at every index is the normalization of the record at that
index), and is a pure function of the input sequence. -/
theorem tableRows_one_to_one_spec (fmt : Int → String) (vs : List VitalRecord) :
    tableRows fmt (some vs) = some (tableRowsOf fmt vs) ∧
    (tableRowsOf fmt vs).length = vs.length ∧
    (∀ i : Nat, (tableRowsOf fmt vs)[i]? = (vs[i]?).map (normalizeRow fmt)) ∧
    (∀ vs2, vs = vs2 → tableRowsOf fmt vs = tableRowsOf fmt vs2) := by
  refine ⟨rfl, by simp [tableRowsOf], ?_, ?_⟩
  · intro i
    simp [tableRowsOf]
  · rintro vs2 rfl
    rfl

/-- Witness for C8: the one-to-one, order- and purity-properties evaluated on
a singleton record list. -/
theorem tableRows_one_to_one_spec_witness :
    (tableRowsOf (fun d => toString d) [blankRecord]).length = 1 ∧
    (tableRowsOf (fun d => toString d) [blankRecord])[0]? =
      some (normalizeRow (fun d => toString d) blankRecord) ∧
    tableRowsOf (fun d => toString d) [blankRecord] =
      tableRowsOf (fun d => toString d) [blankRecord] := by
  have h := tableRows_one_to_one_spec (fun d => toString d) [blankRecord]
  exact ⟨h.2.1, by simpa using h.2.2.1 0, h.2.2.2 [blankRecord] rfl⟩

lemma dateDescLe_trans (a b c : VitalRecord) (hab : dateDescLe a b)
    (hbc : dateDescLe b c) : dateDescLe a c := by
  simp only [dateDescLe, decide_eq_true_eq] at hab hbc ⊢
  omega

lemma dateDescLe_total (a b : VitalRecord) : dateDescLe a b || dateDescLe b a := by
  simp only [dateDescLe, Bool.or_eq_true, decide_eq_true_eq]
  omega

/-- C9: `getSortedBP` overwrites the shared `vitals` array with a
date-descending permutation of its records — leaving the array unchanged only
when it already was in descending date order, so the sort is in place, not on
a copy — and returns exactly the records whose systolic and diastolic values
are both strictly positive, in descending date order; the records themselves
are only rearranged and filtered, never modified. -/
theorem getSortedBP_spec (vs : List VitalRecord) :
    (getSortedBP vs).1.Perm vs ∧
    List.Pairwise (fun a b => dateDescLe a b = true) (getSortedBP vs).1 ∧
    (getSortedBP vs).2 = (getSortedBP vs).1.filter posBP ∧
    List.Pairwise (fun a b => dateDescLe a b = true) (getSortedBP vs).2 ∧
    (getSortedBP vs).2.Perm (vs.filter posBP) ∧
    ((getSortedBP vs).1 = vs ↔ List.Pairwise (fun a b => dateDescLe a b = true) vs) := by
  have hperm : (vs.mergeSort dateDescLe).Perm vs := List.mergeSort_perm vs dateDescLe
  have hsort : List.Pairwise (fun a b => dateDescLe a b = true) (vs.mergeSort dateDescLe) :=
    List.sorted_mergeSort dateDescLe_trans dateDescLe_total vs
  have hdef : (getSortedBP vs).1 = vs.mergeSort dateDescLe := rfl
  refine ⟨hperm, hsort, rfl, hsort.filter posBP, hperm.filter posBP, ?_, ?_⟩
  · intro h
    rw [hdef] at h
    rw [← h]
    exact hsort
  · intro h
    rw [hdef]
    exact List.mergeSort_of_sorted h

/-- C10: within the data-card branch (loading finished, no fetch error, data
present), the Open Clinical button is shown iff some record has strictly
positive systolic and diastolic values; and clicking it navigates to the URL
built from the systolic and diastolic values of a latest-date such record
together with the patient's birth date, gender and id. -/
theorem openClinical_button_spec :
    (∀ (inp : RenderInput) (vs : List VitalRecord),
      inp.isLoading = false → inp.error = none → inp.vitals = some vs →
      (renderView inp = .dataCard true ↔ ∃ r ∈ vs, posBP r = true)) ∧
    (∀ (p : Patient) (vs : List VitalRecord),
      (∃ r ∈ vs, posBP r = true) →
      ∃ r, handleOpenClinical p vs = some (openClinicalURL p r) ∧ r ∈ vs ∧
        posBP r = true ∧ ∀ r2 ∈ vs, posBP r2 = true → r2.date ≤ r.date) := by
  constructor
  · intro inp vs h1 h2 h3
    have hrv : renderView inp =
        if vs.length ≠ 0 then .dataCard (decide (0 < (getSortedBP vs).2.length))
        else .emptyState := by
      simp [renderView, h1, h2, h3]
    rw [hrv]
    constructor
    · intro h
      by_cases hlen : vs.length ≠ 0
      · rw [if_pos hlen] at h
        simp only [View.dataCard.injEq] at h
        have hpos : 0 < (getSortedBP vs).2.length := of_decide_eq_true h
        obtain ⟨r, hr⟩ := List.exists_mem_of_length_pos hpos
        have hr2 : r ∈ (vs.mergeSort dateDescLe).filter posBP := hr
        have hr3 := List.mem_filter.mp hr2
        exact ⟨r, List.mem_mergeSort.mp hr3.1, hr3.2⟩
      · rw [if_neg hlen] at h
        exact absurd h (by simp)
    · rintro ⟨r, hrmem, hrpos⟩
      have hlen : vs.length ≠ 0 := by
        intro h0
        rw [List.length_eq_zero] at h0
        subst h0
        exact absurd hrmem (List.not_mem_nil r)
      rw [if_pos hlen]
      have hrf : r ∈ (vs.mergeSort dateDescLe).filter posBP :=
        List.mem_filter.mpr ⟨List.mem_mergeSort.mpr hrmem, hrpos⟩
      have hd : decide (0 < (getSortedBP vs).2.length) = true :=
        decide_eq_true (List.length_pos_of_mem hrf)
      rw [hd]
  · intro p vs hex
    obtain ⟨r0, hr0mem, hr0pos⟩ := hex
    have hsort : List.Pairwise (fun a b => dateDescLe a b = true)
        (vs.mergeSort dateDescLe) :=
      List.sorted_mergeSort dateDescLe_trans dateDescLe_total vs
    have hsortf := hsort.filter posBP
    have hmem0 : r0 ∈ (vs.mergeSort dateDescLe).filter posBP :=
      List.mem_filter.mpr ⟨List.mem_mergeSort.mpr hr0mem, hr0pos⟩
    cases hf : (vs.mergeSort dateDescLe).filter posBP with
    | nil =>
      rw [hf] at hmem0
      exact absurd hmem0 (List.not_mem_nil r0)
    | cons r rest =>
      have hrmem : r ∈ (vs.mergeSort dateDescLe).filter posBP := by
        rw [hf]
        exact List.mem_cons_self r rest
      have hrs := List.mem_filter.mp hrmem
      refine ⟨r, ?_, List.mem_mergeSort.mp hrs.1, hrs.2, ?_⟩
      · simp only [handleOpenClinical, getSortedBP]
        rw [hf]
      · intro r2 h2mem h2pos
        have h2f : r2 ∈ (vs.mergeSort dateDescLe).filter posBP :=
          List.mem_filter.mpr ⟨List.mem_mergeSort.mpr h2mem, h2pos⟩
        rw [hf] at h2f
        rcases List.mem_cons.mp h2f with heq | hin
        · subst heq
          exact le_refl r2.date
        · rw [hf] at hsortf
          have hle := (List.pairwise_cons.mp hsortf).1 r2 hin
          simpa [dateDescLe] using hle

/-- Witness for C10: a single record with blood pressure 120/80 makes the
button appear and the navigation URL is built from that record and the
patient demographics. -/
theorem openClinical_button_spec_witness :
    renderView { isLoading := false, error := none, vitals := some [positiveBPRecord] } =
      .dataCard true ∧
    handleOpenClinical demoPatient [positiveBPRecord] =
      some (openClinicalURL demoPatient positiveBPRecord) := by
  constructor
  · exact (openClinical_button_spec.1 _ [positiveBPRecord] rfl rfl rfl).mpr
      ⟨positiveBPRecord, List.mem_cons_self _ _, by decide⟩
  · obtain ⟨r, hurl, hmem, -, -⟩ := openClinical_button_spec.2 demoPatient
      [positiveBPRecord] ⟨positiveBPRecord, List.mem_cons_self _ _, by decide⟩
    have hr : r = positiveBPRecord := List.mem_singleton.mp hmem
    rw [hr] at hurl
    exact hurl

end VitalsOverview
